import Mathlib

/-!
Verification of `main.py` of the nanomodem3 pico driver demonstrator.

The module consists of a header comment, one module-level string literal
(the triple-quoted block spanning the documented code path), and four
active statements:

  pico = NM3Driver()
  pico.connect()
  print("Ping 169", pico.ping(169))
  pico.send_unicast_message(169, "Test")

The import of `NM3Driver` occurs only inside the string literal, so the
name is unbound when the active statements execute.  We embed the module
as a list of statements over a small Python-statement semantics with
explicit name lookup, an event trace of driver calls, and a list of
printed lines.  The external driver is an abstract behaviour giving the
result of each method.  `runWith` runs the module from an arbitrary
initial environment; `runModule` runs it from the actual (empty) one.
-/

namespace NM3Main

/-- Python values that can arise while running the module. -/
inductive PyVal where
  | int (n : Int)
  | str (s : String)
  | pyNone
  | cls
  | inst (id : Nat)
deriving DecidableEq

/-- Textual conversion `str(v)`, as the builtin `print` applies it. -/
def pyStr : PyVal → String
  | .int n => toString n
  | .str s => s
  | .pyNone => "None"
  | .cls => "<class NM3Driver>"
  | .inst _ => "<NM3Driver object>"

/-- Opaque error payload carried by a failing driver call. -/
abbrev DriverErr := Nat

/-- Errors a statement of the module can raise. -/
inductive PyError where
  | nameError (x : String)
  | typeError
  | driverError (e : DriverErr)
deriving DecidableEq

/-- Behaviour of the external driver collaborator: the outcome of each
method of its contract (`connect`, `get_voltage`, `ping`,
`send_unicast_message`). -/
structure DriverBehavior where
  connect : Except DriverErr PyVal
  get_voltage : Except DriverErr PyVal
  ping : Int → Except DriverErr PyVal
  send_unicast_message : Int → String → Except DriverErr PyVal

/-- Driver-call events recorded during a run, each tagged with the id of
the driver instance it is performed on. -/
inductive CallEvent where
  | construct (id : Nat)
  | connect (id : Nat)
  | get_voltage (id : Nat)
  | ping (id : Nat) (addr : Int)
  | send_unicast_message (id : Nat) (addr : Int) (payload : String)
deriving DecidableEq

/-- Names of the driver methods the script can invoke. -/
inductive MethodName where
  | connect
  | get_voltage
  | ping
  | send_unicast_message
deriving DecidableEq

/-- Expressions occurring in the module.  Method-call arguments are
literal constants in the source, so they are embedded as values. -/
inductive PyExpr where
  | lit (v : PyVal)
  | name (x : String)
  | construct (callee : PyExpr)
  | method (obj : PyExpr) (m : MethodName) (args : List PyVal)

/-- Statements occurring in the module. -/
inductive PyStmt where
  | exprStmt (e : PyExpr)
  | assign (x : String) (e : PyExpr)
  | print (args : List PyExpr)

/-- Interpreter state: the environment of bound names, the allocation
counter for driver instances, the trace of driver calls issued so far,
and the lines printed so far. -/
structure PyState where
  env : List (String × PyVal)
  nextId : Nat
  calls : List CallEvent
  output : List String
deriving DecidableEq

/-- Append one driver-call event to the trace. -/
def recordCall (s : PyState) (ev : CallEvent) : PyState :=
  { s with calls := s.calls ++ [ev] }

/-- Record a driver call and translate its outcome into the statement
semantics: a driver error propagates as a `PyError.driverError`. -/
def driverStep (s : PyState) (ev : CallEvent) (r : Except DriverErr PyVal) :
    PyState × Except PyError PyVal :=
  (recordCall s ev, r.mapError PyError.driverError)

/-- Evaluate an expression: look names up in the environment (an unbound
name raises `NameError`), allocate an instance for a class call, and
dispatch method calls to the driver behaviour. -/
def evalExpr (d : DriverBehavior) : PyExpr → PyState → PyState × Except PyError PyVal
  | .lit v, s => (s, .ok v)
  | .name x, s =>
    match s.env.lookup x with
    | some v => (s, .ok v)
    | none => (s, .error (.nameError x))
  | .construct c, s =>
    match evalExpr d c s with
    | (s1, .error e) => (s1, .error e)
    | (s1, .ok PyVal.cls) =>
      (recordCall { s1 with nextId := s1.nextId + 1 } (.construct s1.nextId),
       .ok (.inst s1.nextId))
    | (s1, .ok _) => (s1, .error .typeError)
  | .method o m args, s =>
    match evalExpr d o s with
    | (s1, .error e) => (s1, .error e)
    | (s1, .ok (PyVal.inst i)) =>
      match m, args with
      | .connect, [] => driverStep s1 (.connect i) d.connect
      | .get_voltage, [] => driverStep s1 (.get_voltage i) d.get_voltage
      | .ping, [.int a] => driverStep s1 (.ping i a) (d.ping a)
      | .send_unicast_message, [.int a, .str p] =>
        driverStep s1 (.send_unicast_message i a p) (d.send_unicast_message a p)
      | _, _ => (s1, .error .typeError)
    | (s1, .ok _) => (s1, .error .typeError)

/-- Evaluate a list of argument expressions left to right, stopping at
the first error. -/
def evalArgs (d : DriverBehavior) : List PyExpr → PyState → PyState × Except PyError (List PyVal)
  | [], s => (s, .ok [])
  | e :: es, s =>
    match evalExpr d e s with
    | (s1, .error err) => (s1, .error err)
    | (s1, .ok v) =>
      match evalArgs d es s1 with
      | (s2, .error err) => (s2, .error err)
      | (s2, .ok vs) => (s2, .ok (v :: vs))

/-- Join of the printed fields with single spaces, as Python's `print`
with its default separator produces. -/
def joinWithSpaces : List String → String
  | [] => ""
  | [x] => x
  | x :: xs => x ++ " " ++ joinWithSpaces xs

/-- Execute one statement: an expression statement discards its value,
an assignment binds the name, `print` emits one line built from the
textual conversion of its arguments. -/
def execStmt (d : DriverBehavior) : PyStmt → PyState → PyState × Option PyError
  | .exprStmt e, s =>
    match evalExpr d e s with
    | (s1, .ok _) => (s1, none)
    | (s1, .error err) => (s1, some err)
  | .assign x e, s =>
    match evalExpr d e s with
    | (s1, .ok v) => ({ s1 with env := (x, v) :: s1.env }, none)
    | (s1, .error err) => (s1, some err)
  | .print args, s =>
    match evalArgs d args s with
    | (s1, .ok vs) =>
      ({ s1 with output := s1.output ++ [joinWithSpaces (vs.map pyStr)] }, none)
    | (s1, .error err) => (s1, some err)

/-- Execute a statement list in order, halting at the first error, which
is reported uncaught together with the state reached so far. -/
def execStmts (d : DriverBehavior) : List PyStmt → PyState → PyState × Option PyError
  | [], s => (s, none)
  | t :: ts, s =>
    match execStmt d t s with
    | (s1, none) => execStmts d ts s1
    | (s1, some err) => (s1, some err)

/-- Contents of the module-level triple-quoted string literal of
`main.py` (lines 12 to 29): the documented code path, including the
importing of `NM3Driver`, the voltage query and the distance message. -/
def mainDocstring : String :=
  "\nfrom nm3_pico_driver import NM3Driver\nmessage = \x22Ocean Lab Test\x22\nmodem = 169\n\npico = NM3Driver()\npico.connect()\n#addr = pico.get_address()\n#print(f\x22Address: {addr}\x22)\n\nvoltage = pico.get_voltage()\nprint(f\x22Voltage: {voltage}\x22)\ndistance = str(pico.ping(modem))\n\nprint(f\x22Distance to modem 169: {distance}\x22)\nsend_test = pico.send_unicast_message(modem, distance)\nprint(f\x22Sending message: {message}. To modem: {modem}. Returning: {send_test}.\x22)\n"

/-- The string-literal expression statement spanning lines 12 to 29. -/
def docstringStmt : PyStmt := .exprStmt (.lit (.str mainDocstring))

/-- The active statements of `main.py`, lines 30 to 33. -/
def activeStmts : List PyStmt :=
  [ .assign "pico" (.construct (.name "NM3Driver")),
    .exprStmt (.method (.name "pico") .connect []),
    .print [.lit (.str "Ping 169"), .method (.name "pico") .ping [.int 169]],
    .exprStmt (.method (.name "pico") .send_unicast_message [.int 169, .str "Test"]) ]

/-- The whole module body: the string literal followed by the active
statements. -/
def mainModule : List PyStmt := docstringStmt :: activeStmts

/-- Initial interpreter state for a given initial environment. -/
def initState (env : List (String × PyVal)) : PyState := ⟨env, 0, [], []⟩

/-- Run the module from an arbitrary initial environment. -/
def runWith (env : List (String × PyVal)) (d : DriverBehavior) : PyState × Option PyError :=
  execStmts d mainModule (initState env)

/-- Run the module as `main.py` actually runs: no name is bound when the
active statements start, in particular not `NM3Driver` (its import sits
inside the string literal). -/
def runModule (d : DriverBehavior) : PyState × Option PyError := runWith [] d

/-- Counterfactual environment in which the class name is bound, as the
importing line inside the string literal would have left it. -/
def boundEnv : List (String × PyVal) := [("NM3Driver", PyVal.cls)]

/-- Recogniser for `connect` events. -/
def isConnect : CallEvent → Bool
  | .connect _ => true
  | _ => false

/-- Recogniser for `get_voltage` events. -/
def isGetVoltage : CallEvent → Bool
  | .get_voltage _ => true
  | _ => false

/-- Recogniser for `ping` events. -/
def isPing : CallEvent → Bool
  | .ping _ _ => true
  | _ => false

/-- Recogniser for `send_unicast_message` events. -/
def isSend : CallEvent → Bool
  | .send_unicast_message _ _ _ => true
  | _ => false

/-- Recogniser for construction events. -/
def isConstruct : CallEvent → Bool
  | .construct _ => true
  | _ => false

/-- Id of the driver instance an event concerns. -/
def CallEvent.rid : CallEvent → Nat
  | .construct i => i
  | .connect i => i
  | .get_voltage i => i
  | .ping i _ => i
  | .send_unicast_message i _ _ => i

/-- Destination address and payload of every send event of a trace. -/
def sentMessages (l : List CallEvent) : List (Int × String) :=
  l.filterMap fun ev =>
    match ev with
    | .send_unicast_message _ a p => some (a, p)
    | _ => none

/-- Address of every ping event of a trace. -/
def pingAddresses (l : List CallEvent) : List Int :=
  l.filterMap fun ev =>
    match ev with
    | .ping _ a => some a
    | _ => none

/-- Driver behaviour on which every call succeeds: `ping` measures 42,
`send_unicast_message` acknowledges with the string OK. -/
def dAllOk : DriverBehavior where
  connect := .ok .pyNone
  get_voltage := .ok (.int 7)
  ping := fun _ => .ok (.int 42)
  send_unicast_message := fun _ _ => .ok (.str "OK")

/-- Driver behaviour whose `connect` raises. -/
def dConnectFail : DriverBehavior :=
  { dAllOk with connect := .error 1 }

/-- Second driver behaviour defined separately but answering every
method exactly as `dAllOk` does. -/
def dAllOkTwin : DriverBehavior where
  connect := .ok .pyNone
  get_voltage := .ok (.int 7)
  ping := fun _ => .ok (.int 42)
  send_unicast_message := fun _ _ => .ok (.str "OK")

/-- Full case analysis of a run: an unbound class name raises
`NameError` before any driver call; with the class bound, the run
issues construct, connect, ping 169 and send 169 "Test" in order,
halting at the first driver error, and prints the ping line once the
ping result is available. -/
theorem runWith_eq (env : List (String × PyVal)) (d : DriverBehavior) :
    runWith env d =
      match List.lookup "NM3Driver" env with
      | none => (initState env, some (PyError.nameError "NM3Driver"))
      | some PyVal.cls =>
        match d.connect with
        | .error e =>
          (⟨("pico", PyVal.inst 0) :: env, 1,
            [CallEvent.construct 0, CallEvent.connect 0], []⟩,
           some (PyError.driverError e))
        | .ok _ =>
          match d.ping 169 with
          | .error e =>
            (⟨("pico", PyVal.inst 0) :: env, 1,
              [CallEvent.construct 0, CallEvent.connect 0, CallEvent.ping 0 169], []⟩,
             some (PyError.driverError e))
          | .ok v =>
            match d.send_unicast_message 169 "Test" with
            | .error e =>
              (⟨("pico", PyVal.inst 0) :: env, 1,
                [CallEvent.construct 0, CallEvent.connect 0, CallEvent.ping 0 169,
                 CallEvent.send_unicast_message 0 169 "Test"],
                ["Ping 169 " ++ pyStr v]⟩,
               some (PyError.driverError e))
            | .ok _ =>
              (⟨("pico", PyVal.inst 0) :: env, 1,
                [CallEvent.construct 0, CallEvent.connect 0, CallEvent.ping 0 169,
                 CallEvent.send_unicast_message 0 169 "Test"],
                ["Ping 169 " ++ pyStr v]⟩,
               none)
      | some _ => (initState env, some PyError.typeError) := by
  have hstep : runWith env d = execStmts d activeStmts (initState env) := rfl
  rw [hstep]
  rcases h : List.lookup "NM3Driver" env with _ | v
  · simp [activeStmts, execStmts, execStmt, evalExpr, initState, h]
  · cases v with
    | cls =>
      rcases hc : d.connect with e | v1
      · simp [activeStmts, execStmts, execStmt, evalExpr, initState, h, hc,
              driverStep, recordCall, Except.mapError, List.lookup]
      · rcases hp : d.ping 169 with e | v2
        · simp [activeStmts, execStmts, execStmt, evalExpr, evalArgs, initState, h, hc, hp,
                driverStep, recordCall, Except.mapError, List.lookup]
        · rcases hs : d.send_unicast_message 169 "Test" with e | v3
          · simp [activeStmts, execStmts, execStmt, evalExpr, evalArgs, initState, h, hc, hp, hs,
                  driverStep, recordCall, Except.mapError, List.lookup, joinWithSpaces, pyStr]
          · simp [activeStmts, execStmts, execStmt, evalExpr, evalArgs, initState, h, hc, hp, hs,
                  driverStep, recordCall, Except.mapError, List.lookup, joinWithSpaces, pyStr]
    | int n => simp [activeStmts, execStmts, execStmt, evalExpr, initState, h]
    | str t => simp [activeStmts, execStmts, execStmt, evalExpr, initState, h]
    | pyNone => simp [activeStmts, execStmts, execStmt, evalExpr, initState, h]
    | inst i => simp [activeStmts, execStmts, execStmt, evalExpr, initState, h]

/-- C2: every run of the active code fails at the driver construction
with a NameError for the unbound name `NM3Driver` (its only import sits
inside the string literal), and consequently no driver method —
connect, ping or send_unicast_message — is ever invoked: the call trace
of the run is empty. -/
theorem c2_run_always_name_error (d : DriverBehavior) :
    runModule d = (initState [], some (PyError.nameError "NM3Driver")) ∧
    (runModule d).1.calls = [] :=
  ⟨rfl, rfl⟩

/-- C10: evaluating the module-level string literal has no runtime
effect: from any state it returns that state unchanged — it binds no
name, issues no driver call, produces no output, raises no error — and
running the whole module is the same as running only the active
statements. -/
theorem c10_docstring_inert (d : DriverBehavior) (s : PyState)
    (env : List (String × PyVal)) :
    execStmt d docstringStmt s = (s, none) ∧
    runWith env d = execStmts d activeStmts (initState env) :=
  ⟨rfl, rfl⟩

/-- C1 counterexample: with a driver behaviour on which every call
succeeds, the script's run performs zero connect calls, zero voltage
queries, zero pings and zero sends — not exactly one of each — because
it fails with a NameError before any driver call. -/
theorem c1_counterexample :
    (runModule dAllOk).1.calls.countP isConnect = 0 ∧
    (runModule dAllOk).1.calls.countP isGetVoltage = 0 ∧
    (runModule dAllOk).1.calls.countP isPing = 0 ∧
    (runModule dAllOk).1.calls.countP isSend = 0 ∧
    (runModule dAllOk).2 = some (PyError.nameError "NM3Driver") := by
  decide

/-- C1 amended: for every run in which the name `NM3Driver` is bound in
the executing scope and all driver calls succeed, the script performs
exactly one construction, one connect, one ping and one send, in that
order, against the fixed peer address 169, and no voltage query; in
actual runs no driver call is performed at all. -/
theorem c1_amended (d : DriverBehavior) (v1 v2 v3 : PyVal)
    (h1 : d.connect = .ok v1) (h2 : d.ping 169 = .ok v2)
    (h3 : d.send_unicast_message 169 "Test" = .ok v3) :
    (runWith boundEnv d).1.calls =
      [CallEvent.construct 0, CallEvent.connect 0, CallEvent.ping 0 169,
       CallEvent.send_unicast_message 0 169 "Test"] ∧
    (runModule d).1.calls = [] := by
  refine ⟨?_, rfl⟩
  rw [runWith_eq]
  simp [boundEnv, h1, h2, h3, List.lookup]

/-- C1 amended, witnessed at the all-succeeding driver behaviour. -/
theorem c1_amended_witness :
    (runWith boundEnv dAllOk).1.calls =
      [CallEvent.construct 0, CallEvent.connect 0, CallEvent.ping 0 169,
       CallEvent.send_unicast_message 0 169 "Test"] ∧
    (runModule dAllOk).1.calls = [] :=
  c1_amended dAllOk PyVal.pyNone (PyVal.int 42) (PyVal.str "OK") rfl rfl rfl

/-- C3 counterexample: in the successful run with the class name bound
and the all-succeeding driver (ping measuring 42), the payload handed to
send_unicast_message is the constant "Test", not the distance string
"42", and the send result never reaches the output: the only printed
line is the ping line. -/
theorem c3_counterexample :
    (runWith boundEnv dAllOk).2 = none ∧
    sentMessages (runWith boundEnv dAllOk).1.calls = [(169, "Test")] ∧
    pyStr (PyVal.int 42) = "42" ∧
    ("Test" : String) ≠ "42" ∧
    (runWith boundEnv dAllOk).1.output = ["Ping 169 42"] := by
  decide

/-- C3 amended: in every run with the class name bound whose driver
calls succeed, the payload passed to send_unicast_message is the
constant string "Test" (not the distance string), the destination
address 169 equals the address used for the ping, and the value
returned by send_unicast_message is discarded: the only printed line is
the ping line. -/
theorem c3_amended (d : DriverBehavior) (v1 v2 v3 : PyVal)
    (h1 : d.connect = .ok v1) (h2 : d.ping 169 = .ok v2)
    (h3 : d.send_unicast_message 169 "Test" = .ok v3) :
    sentMessages (runWith boundEnv d).1.calls = [(169, "Test")] ∧
    pingAddresses (runWith boundEnv d).1.calls = [169] ∧
    (runWith boundEnv d).1.output = ["Ping 169 " ++ pyStr v2] ∧
    (runWith boundEnv d).2 = none := by
  simp [runWith_eq, boundEnv, h1, h2, h3, sentMessages, pingAddresses, List.lookup]

/-- C3 amended, witnessed at the all-succeeding driver behaviour. -/
theorem c3_amended_witness :
    sentMessages (runWith boundEnv dAllOk).1.calls = [(169, "Test")] ∧
    pingAddresses (runWith boundEnv dAllOk).1.calls = [169] ∧
    (runWith boundEnv dAllOk).1.output = ["Ping 169 " ++ pyStr (PyVal.int 42)] ∧
    (runWith boundEnv dAllOk).2 = none :=
  c3_amended dAllOk PyVal.pyNone (PyVal.int 42) (PyVal.str "OK") rfl rfl rfl

/-- C4 counterexample: the successful run with the class name bound and
the all-succeeding driver issues no get_voltage call at all and prints
only the ping line, never a voltage. -/
theorem c4_counterexample :
    (runWith boundEnv dAllOk).2 = none ∧
    (runWith boundEnv dAllOk).1.calls.countP isGetVoltage = 0 ∧
    (runWith boundEnv dAllOk).1.output = ["Ping 169 42"] := by
  decide

/-- C4 amended: in no run, from any initial environment and with any
driver behaviour, does the script call get_voltage: the voltage query
appears only inside the unexecuted string literal. -/
theorem c4_amended (env : List (String × PyVal)) (d : DriverBehavior) :
    (runWith env d).1.calls.countP isGetVoltage = 0 := by
  rw [runWith_eq]
  rcases h : List.lookup "NM3Driver" env with _ | v
  · simp [initState]
  · cases v with
    | cls =>
      rcases hc : d.connect with e | v1
      · simp [isGetVoltage]
      · rcases hp : d.ping 169 with e | v2
        · simp [isGetVoltage]
        · rcases hs : d.send_unicast_message 169 "Test" with e | v3
          · simp [isGetVoltage]
          · simp [isGetVoltage]
    | int n => simp [initState]
    | str t => simp [initState]
    | pyNone => simp [initState]
    | inst i => simp [initState]

/-- C5: in every run, from any initial environment, in which the
driver's connect raises, no subsequent driver call — get_voltage, ping
or send_unicast_message — is issued and nothing is printed. -/
theorem c5_connect_failure_halts (env : List (String × PyVal)) (d : DriverBehavior)
    (e : DriverErr) (h : d.connect = .error e) :
    (runWith env d).1.calls.countP isGetVoltage = 0 ∧
    (runWith env d).1.calls.countP isPing = 0 ∧
    (runWith env d).1.calls.countP isSend = 0 ∧
    (runWith env d).1.output = [] := by
  simp only [runWith_eq]
  rcases hl : List.lookup "NM3Driver" env with _ | v
  · simp [initState, isGetVoltage, isPing, isSend]
  · cases v with
    | cls => simp [h, isGetVoltage, isPing, isSend]
    | int n => simp [initState, isGetVoltage, isPing, isSend]
    | str t => simp [initState, isGetVoltage, isPing, isSend]
    | pyNone => simp [initState, isGetVoltage, isPing, isSend]
    | inst i => simp [initState, isGetVoltage, isPing, isSend]

/-- C5 witnessed at the bound environment with a failing connect. -/
theorem c5_witness :
    (runWith boundEnv dConnectFail).1.calls.countP isGetVoltage = 0 ∧
    (runWith boundEnv dConnectFail).1.calls.countP isPing = 0 ∧
    (runWith boundEnv dConnectFail).1.calls.countP isSend = 0 ∧
    (runWith boundEnv dConnectFail).1.output = [] :=
  c5_connect_failure_halts boundEnv dConnectFail 1 rfl

/-- C6: whichever driver call is the first to raise — connect, ping or
send_unicast_message — the script catches nothing: the run terminates
at that call, the trace ends with it, and the very error raised is the
reported outcome of the run. -/
theorem c6_errors_propagate (d : DriverBehavior) (e : DriverErr) :
    (d.connect = .error e →
      runWith boundEnv d =
        (⟨("pico", PyVal.inst 0) :: boundEnv, 1,
          [CallEvent.construct 0, CallEvent.connect 0], []⟩,
         some (PyError.driverError e))) ∧
    (∀ v, d.connect = .ok v → d.ping 169 = .error e →
      runWith boundEnv d =
        (⟨("pico", PyVal.inst 0) :: boundEnv, 1,
          [CallEvent.construct 0, CallEvent.connect 0, CallEvent.ping 0 169], []⟩,
         some (PyError.driverError e))) ∧
    (∀ v w, d.connect = .ok v → d.ping 169 = .ok w →
      d.send_unicast_message 169 "Test" = .error e →
      runWith boundEnv d =
        (⟨("pico", PyVal.inst 0) :: boundEnv, 1,
          [CallEvent.construct 0, CallEvent.connect 0, CallEvent.ping 0 169,
           CallEvent.send_unicast_message 0 169 "Test"],
          ["Ping 169 " ++ pyStr w]⟩,
         some (PyError.driverError e))) := by
  refine ⟨fun hc => ?_, fun v hc hp => ?_, fun v w hc hp hs => ?_⟩
  · rw [runWith_eq]
    simp [boundEnv, hc, List.lookup]
  · rw [runWith_eq]
    simp [boundEnv, hc, hp, List.lookup]
  · rw [runWith_eq]
    simp [boundEnv, hc, hp, hs, List.lookup]

/-- C6 witnessed at the driver whose connect raises error 1. -/
theorem c6_witness :
    runWith boundEnv dConnectFail =
      (⟨("pico", PyVal.inst 0) :: boundEnv, 1,
        [CallEvent.construct 0, CallEvent.connect 0], []⟩,
       some (PyError.driverError 1)) :=
  (c6_errors_propagate dConnectFail 1).1 rfl

/-- C7: whenever the ping call returns a value, the distance text the
script prints is exactly the textual conversion of that value, applied
once and unmodified, after the fixed prefix of the print statement. -/
theorem c7_distance_text (env : List (String × PyVal)) (d : DriverBehavior)
    (v1 v : PyVal) (henv : List.lookup "NM3Driver" env = some PyVal.cls)
    (h1 : d.connect = .ok v1) (h2 : d.ping 169 = .ok v) :
    (runWith env d).1.output = ["Ping 169 " ++ pyStr v] := by
  rw [runWith_eq]
  rcases hs : d.send_unicast_message 169 "Test" with e | v3 <;>
    simp [henv, h1, h2, hs]

/-- C7 witnessed at the bound environment and the all-succeeding
driver, whose ping measures 42. -/
theorem c7_witness :
    List.lookup "NM3Driver" boundEnv = some PyVal.cls ∧
    (runWith boundEnv dAllOk).1.output = ["Ping 169 " ++ pyStr (PyVal.int 42)] :=
  ⟨rfl, c7_distance_text boundEnv dAllOk PyVal.pyNone (PyVal.int 42) rfl rfl rfl⟩

/-- C8: the run is a deterministic function of the driver's responses:
two driver behaviours that return the same values to connect,
get_voltage, ping and send_unicast_message give byte-identical runs —
same printed output, same trace, same outcome — from any initial
environment; no hidden state enters the result. -/
theorem c8_deterministic_output (env : List (String × PyVal)) (d1 d2 : DriverBehavior)
    (hc : d1.connect = d2.connect)
    (_hv : d1.get_voltage = d2.get_voltage)
    (hp : ∀ a, d1.ping a = d2.ping a)
    (hs : ∀ a p, d1.send_unicast_message a p = d2.send_unicast_message a p) :
    runWith env d1 = runWith env d2 := by
  rw [runWith_eq, runWith_eq, hc, hp 169, hs 169 "Test"]

/-- C8 witnessed at two separately defined behaviours with identical
responses. -/
theorem c8_witness : runWith boundEnv dAllOk = runWith boundEnv dAllOkTwin :=
  c8_deterministic_output boundEnv dAllOk dAllOkTwin rfl rfl
    (fun _ => rfl) (fun _ _ => rfl)

/-- C9 counterexample: in the actual run — here with a driver behaviour
on which every call would succeed — zero driver objects are
constructed, not exactly one. -/
theorem c9_counterexample :
    (runModule dAllOk).1.calls.countP isConstruct = 0 := by
  decide

/-- C9 amended: in actual runs no driver object is ever constructed
(construction fails with a NameError before the call); in a run with
the class name bound, exactly one driver object is constructed and
every driver call of the run is made on that single instance. -/
theorem c9_amended (d : DriverBehavior) :
    (runModule d).1.calls.countP isConstruct = 0 ∧
    (runWith boundEnv d).1.calls.countP isConstruct = 1 ∧
    ((runWith boundEnv d).1.calls.all fun ev => ev.rid == 0) = true := by
  refine ⟨rfl, ?_⟩
  simp only [runWith_eq]
  rcases hc : d.connect with e | v1
  · simp [boundEnv, isConstruct, CallEvent.rid, List.lookup]
  · rcases hp : d.ping 169 with e | v2
    · simp [boundEnv, isConstruct, CallEvent.rid, List.lookup]
    · rcases hs : d.send_unicast_message 169 "Test" with e | v3
      · simp [boundEnv, isConstruct, CallEvent.rid, List.lookup]
      · simp [boundEnv, isConstruct, CallEvent.rid, List.lookup]

end NM3Main
